import Mathlib

/-!
Verification of the nRF watchdog timer (WDT) driver `embassy-nrf/src/wdt.rs`.

The driver is embedded shallowly: the hardware register block of the WDT
peripheral becomes a Lean structure `WdtRegs`, every driver operation becomes
a pure function from register state to register state, and each operation
additionally returns the list of register write events it performs, so that
frame properties ("no register writes", "only the reload register is
written") are statable.  Machine integers (`u32`) are modelled as `Nat`;
none of the verified operations can overflow 32 bits (the only arithmetic is
`max`, `(1 << N) - 1` with `N ≤ 8`, and bitwise operations).
-/

namespace Wdt

/-- `SleepConfig` embeds `pac::wdt::vals::Sleep` (re-exported by the driver):
should the watchdog keep counting during sleep? -/
inductive SleepConfig where
  | RUN
  | PAUSE
deriving DecidableEq, Repr

/-- `HaltConfig` embeds `pac::wdt::vals::Halt` (re-exported by the driver):
should the watchdog keep counting while the CPU is halted for debug? -/
inductive HaltConfig where
  | RUN
  | PAUSE
deriving DecidableEq, Repr

/-- `MIN_TICKS` from `wdt.rs` line 12: the 15-tick floor on the timeout. -/
def MIN_TICKS : Nat := 15

/-- `Config` embeds the driver's `Config` struct (`wdt.rs` lines 16-28). -/
structure Config where
  timeout_ticks : Nat
  action_during_sleep : SleepConfig
  action_during_debug_halt : HaltConfig
deriving DecidableEq, Repr

/-- `Config::default` (`wdt.rs` lines 57-65): one second at 32768 Hz, both
actions `RUN`. -/
def Config.default : Config :=
  { timeout_ticks := 32768
    action_during_sleep := SleepConfig.RUN
    action_during_debug_halt := HaltConfig.RUN }

/-- The WDT peripheral register block, as the driver reads and writes it.
Fields mirror the registers named in the source: `runstatus` (read-only
armed flag), the `config` register's `sleep` and `halt` bits, the interrupt
enable bit for the TIMEOUT event (written through `intenset`/`intenclr`),
`crv` (compare/reload value), `rren` (reload-request enable mask) and
`reqstatus` (pending-status bitmask, bit i set = index i is enabled and has
not yet requested reload this window). -/
structure WdtRegs where
  runstatus : Bool
  sleep : SleepConfig
  halt : HaltConfig
  inten : Bool
  crv : Nat
  rren : Nat
  reqstatus : Nat
deriving DecidableEq, Repr

/-- One register write performed by the driver.  `rrW i` is a write of the
fixed reload sentinel to reload register `RR[i]`; the remaining constructors
record writes to the configuration, interrupt enable-set, interrupt
enable-clear, compare value, enable mask and start-task registers. -/
inductive WriteEvent where
  | configW (sleep : SleepConfig) (halt : HaltConfig)
  | intensetW
  | intenclrW
  | crvW (v : Nat)
  | rrenW (v : Nat)
  | startW
  | rrW (i : Nat)
deriving DecidableEq, Repr

/-- Clear bit `i` of `n`, leaving every other bit unchanged.  This is the
hardware effect on `reqstatus` of writing the reload sentinel to `RR[i]`. -/
def clearBit (n i : Nat) : Nat :=
  n ^^^ (n &&& (1 <<< i))

/-- Modelled from the spec: the pending-status register has "one pending bit
per index; cleared by that index's liveness report".  Writing the reload
sentinel to `RR[i]` (the body of `WatchdogHandle::pet`, `wdt.rs` lines
195-201) therefore clears bit `i` of `reqstatus` and touches nothing else. -/
def petStep (i : Nat) (r : WdtRegs) : WdtRegs :=
  { r with reqstatus := clearBit r.reqstatus i }

/-- `WatchdogHandle` embeds the driver's handle struct (`wdt.rs` lines
182-185): just a raw `u8` index (the `PhantomData` field carries no data). -/
structure WatchdogHandle where
  index : Nat
deriving DecidableEq, Repr

/-- `WatchdogHandle::pet` (`wdt.rs` lines 195-201): write the reload
sentinel to `RR[self.index]`.  Returns the new register state and the write
log. -/
def WatchdogHandle.pet (h : WatchdogHandle) (r : WdtRegs) :
    WdtRegs × List WriteEvent :=
  (petStep h.index r, [WriteEvent.rrW h.index])

/-- `WatchdogHandle::is_pet` (`wdt.rs` lines 204-210): negation of the raw
`reqstatus` bit at `self.index`. -/
def WatchdogHandle.isPet (h : WatchdogHandle) (r : WdtRegs) : Bool :=
  !(r.reqstatus.testBit h.index)

/-- `WatchdogHandle::steal` (`wdt.rs` lines 217-222): rebuild a handle from
a raw index, with no validation of any kind. -/
def WatchdogHandle.steal (index : Nat) : WatchdogHandle :=
  { index := index }

/-- The `for i in 0..N { handles[i] = ...; handles[i].pet(); }` loop of
`Watchdog::try_new` (`wdt.rs` lines 129-135), over an explicit list of
indices: pet each index in order, collecting the write events. -/
def petLoop (r : WdtRegs) : List Nat → WdtRegs × List WriteEvent
  | [] => (r, [])
  | i :: rest =>
    let out := petLoop (petStep i r) rest
    (out.1, WriteEvent.rrW i :: out.2)

/-- Modelled from the spec: the start command register is a "write-once
trigger for the one-way arm transition", pending bits are "set again at the
start of each new window if not yet reported", and each enabled index must
report within the window.  So writing the start task sets `runstatus` and
makes every enabled index pending for the first window. -/
def startWrite (r : WdtRegs) : WdtRegs :=
  { r with runstatus := true, reqstatus := r.rren }

/-- The timeout clamp on `wdt.rs` line 92: `config.timeout_ticks.max(MIN_TICKS)`. -/
def clampTicks (t : Nat) : Nat :=
  max t MIN_TICKS

/-- Outcome of `Watchdog::try_new`: `panicked` is the `assert!` firing,
`err` is `Err(wdt)` (the peripheral capability handed back), `ok hs` is
`Ok((Watchdog, handles))` with `hs` the indices of the returned handles. -/
inductive TryNewResult where
  | panicked
  | err
  | ok (handles : List Nat)
deriving DecidableEq, Repr

/-- `Watchdog::try_new::<N>` (`wdt.rs` lines 81-138), as a function of the
initial register state and the requested config.  Returns the outcome, the
final register state and the list of register writes performed, mirroring
the source control flow: assert `1 ≤ N ≤ 8`; clamp the timeout; if armed,
compare the live `(halt, sleep, crv, rren)` against the request and bail
out with `Err` on any mismatch; if not armed, write config, intenset, crv,
rren and the start task; in both surviving paths mint handles `0..N-1` and
pet each once. -/
def tryNew (N : Nat) (r : WdtRegs) (config : Config) :
    TryNewResult × WdtRegs × List WriteEvent :=
  if ¬(1 ≤ N ∧ N ≤ 8) then
    (TryNewResult.panicked, r, [])
  else
    let crv := clampTicks config.timeout_ticks
    let rren := (1 <<< N) - 1
    if r.runstatus then
      if r.halt ≠ config.action_during_debug_halt ∨
          r.sleep ≠ config.action_during_sleep ∨
          r.crv ≠ crv ∨ r.rren ≠ rren then
        (TryNewResult.err, r, [])
      else
        let out := petLoop r (List.range N)
        (TryNewResult.ok (List.range N), out.1, out.2)
    else
      let r1 := { r with sleep := config.action_during_sleep,
                         halt := config.action_during_debug_halt }
      let r2 := { r1 with inten := true }
      let r3 := { r2 with crv := crv }
      let r4 := { r3 with rren := rren }
      let r5 := startWrite r4
      let out := petLoop r5 (List.range N)
      (TryNewResult.ok (List.range N), out.1,
        WriteEvent.configW config.action_during_sleep
            config.action_during_debug_halt ::
          WriteEvent.intensetW :: WriteEvent.crvW crv ::
          WriteEvent.rrenW rren :: WriteEvent.startW :: out.2)

/-- `Watchdog::enable_interrupt` (`wdt.rs` lines 147-152): write 1 to the
TIMEOUT bit of `intenset`, which sets the interrupt enable bit. -/
def enableInterrupt (r : WdtRegs) : WdtRegs × List WriteEvent :=
  ({ r with inten := true }, [WriteEvent.intensetW])

/-- `Watchdog::disable_interrupt` (`wdt.rs` lines 158-163): write 1 to the
TIMEOUT bit of `intenclr`, which clears the interrupt enable bit. -/
def disableInterrupt (r : WdtRegs) : WdtRegs × List WriteEvent :=
  ({ r with inten := false }, [WriteEvent.intenclrW])

/-- `Watchdog::awaiting_pets` (`wdt.rs` lines 170-178): read `rren` and
`reqstatus` and return `(status & enabled) == 0`, exactly as the source
computes it. -/
def awaitingPets (r : WdtRegs) : Bool :=
  (r.reqstatus &&& r.rren) == 0

/-- `Config::try_new` (`wdt.rs` lines 33-54): if `runstatus` reads true,
return the live `(crv, sleep, halt)` as a `Config`, else `None`.  The
function only reads registers; its write log is empty and the state is
returned unchanged. -/
def configTryNew (r : WdtRegs) : Option Config × WdtRegs × List WriteEvent :=
  (if r.runstatus then
      some { timeout_ticks := r.crv
             action_during_sleep := r.sleep
             action_during_debug_halt := r.halt }
    else none,
   r, [])

/-! ## Helper lemmas about bit clearing and the pet loop -/

/-- Clearing bit `i` clears exactly bit `i`: every other bit is unchanged. -/
theorem testBit_clearBit (n i j : Nat) :
    (clearBit n i).testBit j = if j = i then false else n.testBit j := by
  rcases Decidable.em (j = i) with h | h
  · subst h
    simp [clearBit, Nat.one_shiftLeft, Nat.testBit_two_pow_self]
  · simp [clearBit, Nat.one_shiftLeft, Nat.testBit_two_pow_of_ne (Ne.symm h), h]

/-- Folding `clearBit` over a list of indices, as the pet loop does to the
pending-status register. -/
def foldClear (n : Nat) (l : List Nat) : Nat :=
  l.foldl clearBit n

/-- The pet loop clears the listed pending bits in order and logs one
reload-register write per index; it touches no other register. -/
theorem petLoop_eq (l : List Nat) : ∀ r : WdtRegs,
    petLoop r l =
      ({ r with reqstatus := foldClear r.reqstatus l }, l.map WriteEvent.rrW) := by
  induction l with
  | nil => intro r; simp [petLoop, foldClear]
  | cons i rest ih =>
    intro r
    simp [petLoop, foldClear, ih, petStep, List.foldl]

/-- A bit of the folded clear is false when its index is in the list and is
the original bit otherwise. -/
theorem foldClear_testBit (l : List Nat) : ∀ (n j : Nat),
    (foldClear n l).testBit j = if j ∈ l then false else n.testBit j := by
  induction l with
  | nil => intro n j; simp [foldClear]
  | cons i rest ih =>
    intro n j
    have h1 : foldClear n (i :: rest) = foldClear (clearBit n i) rest := rfl
    rw [h1, ih, testBit_clearBit]
    by_cases h2 : j ∈ rest
    · simp [h2]
    · by_cases h3 : j = i <;> simp [h2, h3]

/-- Clearing bits `0..N-1` of a value below `2^N` yields zero. -/
theorem foldClear_range_eq_zero {n N : Nat} (h : n < 2 ^ N) :
    foldClear n (List.range N) = 0 := by
  apply Nat.eq_of_testBit_eq
  intro j
  rw [foldClear_testBit]
  by_cases hj : j < N
  · simp [List.mem_range, hj]
  · have hle : 2 ^ N ≤ 2 ^ j :=
      Nat.pow_le_pow_right (by omega) (Nat.le_of_not_lt hj)
    simp [List.mem_range, hj, Nat.testBit_lt_two_pow (Nat.lt_of_lt_of_le h hle)]

/-- Characterization of `tryNew` on a not-yet-armed peripheral: it performs
the five configuration writes followed by the `N` pets, and the final state
is armed with the requested (clamped) configuration, the mask `(1<<N)-1`,
and the pending bits left by petting indices `0..N-1`. -/
theorem tryNew_not_armed (N : Nat) (r : WdtRegs) (cfg : Config)
    (hN1 : 1 ≤ N) (hN8 : N ≤ 8) (hoff : r.runstatus = false) :
    tryNew N r cfg =
      (TryNewResult.ok (List.range N),
       { runstatus := true
         sleep := cfg.action_during_sleep
         halt := cfg.action_during_debug_halt
         inten := true
         crv := clampTicks cfg.timeout_ticks
         rren := (1 <<< N) - 1
         reqstatus := foldClear ((1 <<< N) - 1) (List.range N) },
       WriteEvent.configW cfg.action_during_sleep cfg.action_during_debug_halt ::
         WriteEvent.intensetW :: WriteEvent.crvW (clampTicks cfg.timeout_ticks) ::
         WriteEvent.rrenW ((1 <<< N) - 1) :: WriteEvent.startW ::
         (List.range N).map WriteEvent.rrW) := by
  simp only [tryNew]
  rw [if_neg (not_not_intro ⟨hN1, hN8⟩), hoff]
  simp only [Bool.false_eq_true, if_false, startWrite, petLoop_eq]

/-- Characterization of `tryNew` on an armed peripheral whose live
configuration matches the request: it succeeds, performs exactly the `N`
pet writes, and the only state change is the pending bits cleared by
petting indices `0..N-1`. -/
theorem tryNew_armed_match (N : Nat) (r : WdtRegs) (cfg : Config)
    (hN1 : 1 ≤ N) (hN8 : N ≤ 8) (hrun : r.runstatus = true)
    (hh : r.halt = cfg.action_during_debug_halt)
    (hs : r.sleep = cfg.action_during_sleep)
    (hc : r.crv = clampTicks cfg.timeout_ticks)
    (hr : r.rren = (1 <<< N) - 1) :
    tryNew N r cfg =
      (TryNewResult.ok (List.range N),
       { r with reqstatus := foldClear r.reqstatus (List.range N) },
       (List.range N).map WriteEvent.rrW) := by
  simp only [tryNew]
  rw [if_neg (not_not_intro ⟨hN1, hN8⟩), hrun]
  simp only [if_true]
  rw [if_neg (by simp [hh, hs, hc, hr]), petLoop_eq]
  simp [hrun]

/-- Characterization of `tryNew` on an armed peripheral whose live
configuration differs from the request in any component: it fails with
`Err`, handing the capability back, with no write and no state change. -/
theorem tryNew_armed_mismatch (N : Nat) (r : WdtRegs) (cfg : Config)
    (hN1 : 1 ≤ N) (hN8 : N ≤ 8) (hrun : r.runstatus = true)
    (hmis : r.halt ≠ cfg.action_during_debug_halt ∨
            r.sleep ≠ cfg.action_during_sleep ∨
            r.crv ≠ clampTicks cfg.timeout_ticks ∨
            r.rren ≠ (1 <<< N) - 1) :
    tryNew N r cfg = (TryNewResult.err, r, []) := by
  simp only [tryNew]
  rw [if_neg (not_not_intro ⟨hN1, hN8⟩), hrun]
  simp only [if_true]
  rw [if_pos hmis]

/-- The enable mask is below `2^N`, so petting all of `0..N-1` clears it. -/
theorem foldClear_mask_eq_zero (N : Nat) :
    foldClear ((1 <<< N) - 1) (List.range N) = 0 := by
  apply foldClear_range_eq_zero
  rw [Nat.one_shiftLeft]
  exact Nat.sub_lt (Nat.pos_pow_of_pos N (by omega)) (by omega)

/-! ## Concrete register states used as witnesses and counterexamples -/

/-- An armed register state: a two-handle watchdog with the default
configuration, both handles enabled and both still pending this window. -/
def regsArmedTwo : WdtRegs :=
  { runstatus := true, sleep := SleepConfig.RUN, halt := HaltConfig.RUN,
    inten := true, crv := 32768, rren := 3, reqstatus := 3 }

/-- A disarmed (never started) register state. -/
def regsIdle : WdtRegs :=
  { runstatus := false, sleep := SleepConfig.PAUSE, halt := HaltConfig.PAUSE,
    inten := false, crv := 0, rren := 0, reqstatus := 0 }

/-- An armed state with a single enabled handle that has not yet pet this
window. -/
def regsArmedOnePending : WdtRegs :=
  { runstatus := true, sleep := SleepConfig.RUN, halt := HaltConfig.RUN,
    inten := true, crv := 32768, rren := 1, reqstatus := 1 }

/-! ## Claim theorems -/

/-- C1: code bug.  In the armed state `regsArmedOnePending` the single
enabled handle is still pending — `reqstatus &&& rren ≠ 0` and the handle's
own `is_pet` reports false — yet `awaiting_pets` returns `false`.  The
source computes `(status & enabled) == 0`, which is the negation of the
claimed behaviour "true iff `(pending_status_bits & enabled_mask) != 0`";
the claim agrees with the function's name and its own doc comment ("Is the
watchdog still awaiting pets from any handle?"), so the code, not the
claim, is wrong. -/
theorem c1_awaitingPets_inverted_on_pending :
    regsArmedOnePending.runstatus = true ∧
    regsArmedOnePending.reqstatus &&& regsArmedOnePending.rren ≠ 0 ∧
    WatchdogHandle.isPet { index := 0 } regsArmedOnePending = false ∧
    awaitingPets regsArmedOnePending = false := by
  decide

/-- C6: constructing with `N` outside `1..=8` fails fast on the `assert!`
before any register read or write: the outcome is the panic, the register
state is returned unchanged and the write log is empty. -/
theorem c6_invalid_handle_count_panics (N : Nat) (r : WdtRegs) (cfg : Config)
    (h : ¬(1 ≤ N ∧ N ≤ 8)) :
    tryNew N r cfg = (TryNewResult.panicked, r, []) := by
  simp [tryNew, h]

/-- C6 witness: `N = 9` against a concrete armed state panics with no
hardware change. -/
theorem c6_invalid_handle_count_panics_witness :
    tryNew 9 regsArmedTwo Config.default =
      (TryNewResult.panicked, regsArmedTwo, []) :=
  c6_invalid_handle_count_panics 9 regsArmedTwo Config.default (by decide)

/-- C7: petting the handle of index `i` writes only the reload register
`RR[i]`, clears exactly pending-status bit `i` (every other pending bit and
every other register field is unchanged), and is idempotent within a
window. -/
theorem c7_pet_clears_only_own_bit (h : WatchdogHandle) (r : WdtRegs) :
    (h.pet r).2 = [WriteEvent.rrW h.index] ∧
    (h.pet r).1.reqstatus.testBit h.index = false ∧
    (∀ j, j ≠ h.index →
      (h.pet r).1.reqstatus.testBit j = r.reqstatus.testBit j) ∧
    (h.pet r).1.runstatus = r.runstatus ∧
    (h.pet r).1.sleep = r.sleep ∧
    (h.pet r).1.halt = r.halt ∧
    (h.pet r).1.inten = r.inten ∧
    (h.pet r).1.crv = r.crv ∧
    (h.pet r).1.rren = r.rren ∧
    (h.pet (h.pet r).1).1 = (h.pet r).1 := by
  refine ⟨rfl, ?_, ?_, rfl, rfl, rfl, rfl, rfl, rfl, ?_⟩
  · simp [WatchdogHandle.pet, petStep, testBit_clearBit]
  · intro j hj
    simp [WatchdogHandle.pet, petStep, testBit_clearBit, hj]
  · have hbit : ∀ j, (clearBit (clearBit r.reqstatus h.index) h.index).testBit j =
        (clearBit r.reqstatus h.index).testBit j := by
      intro j
      rw [testBit_clearBit, testBit_clearBit]
      by_cases hj : j = h.index <;> simp [hj]
    simp [WatchdogHandle.pet, petStep, Nat.eq_of_testBit_eq hbit]

/-- C7 witness: at a concrete state with both bits of a two-handle watchdog
pending, petting handle 1 clears bit 1, leaves bit 0 pending, leaves `rren`
alone, and petting again changes nothing. -/
theorem c7_pet_clears_only_own_bit_witness :
    (WatchdogHandle.pet { index := 1 } regsArmedTwo).2 = [WriteEvent.rrW 1] ∧
    (WatchdogHandle.pet { index := 1 } regsArmedTwo).1.reqstatus.testBit 1 = false ∧
    (WatchdogHandle.pet { index := 1 } regsArmedTwo).1.reqstatus.testBit 0 =
      regsArmedTwo.reqstatus.testBit 0 ∧
    (WatchdogHandle.pet { index := 1 } regsArmedTwo).1.rren = regsArmedTwo.rren ∧
    (WatchdogHandle.pet { index := 1 }
        (WatchdogHandle.pet { index := 1 } regsArmedTwo).1).1 =
      (WatchdogHandle.pet { index := 1 } regsArmedTwo).1 := by
  obtain ⟨h1, h2, h3, _, _, _, _, _, h4, h5⟩ :=
    c7_pet_clears_only_own_bit { index := 1 } regsArmedTwo
  exact ⟨h1, h2, h3 0 (by decide), h4, h5⟩

/-- C9: `enable_interrupt` and `disable_interrupt` write only the
enable-set and enable-clear registers respectively, setting respectively
clearing the timeout-notification bit; the arming state, compare value,
enable mask and pending-status bits are unchanged, as are the sleep/halt
policy bits, so the inputs that determine the reset are untouched. -/
theorem c9_interrupt_toggles_only_notification (r : WdtRegs) :
    (enableInterrupt r).2 = [WriteEvent.intensetW] ∧
    (enableInterrupt r).1.inten = true ∧
    (enableInterrupt r).1.runstatus = r.runstatus ∧
    (enableInterrupt r).1.sleep = r.sleep ∧
    (enableInterrupt r).1.halt = r.halt ∧
    (enableInterrupt r).1.crv = r.crv ∧
    (enableInterrupt r).1.rren = r.rren ∧
    (enableInterrupt r).1.reqstatus = r.reqstatus ∧
    (disableInterrupt r).2 = [WriteEvent.intenclrW] ∧
    (disableInterrupt r).1.inten = false ∧
    (disableInterrupt r).1.runstatus = r.runstatus ∧
    (disableInterrupt r).1.sleep = r.sleep ∧
    (disableInterrupt r).1.halt = r.halt ∧
    (disableInterrupt r).1.crv = r.crv ∧
    (disableInterrupt r).1.rren = r.rren ∧
    (disableInterrupt r).1.reqstatus = r.reqstatus :=
  ⟨rfl, rfl, rfl, rfl, rfl, rfl, rfl, rfl,
   rfl, rfl, rfl, rfl, rfl, rfl, rfl, rfl⟩

/-- C10: `steal` performs no validation: for every `u8` index, including
values at or above 8, the returned handle's `index` field equals the
argument, its `pet` writes the reload register at exactly that raw index
(clearing raw pending bit `index`), and its `is_pet` reads the raw
pending-status bit at that index. -/
theorem c10_steal_unchecked (i : Nat) (r : WdtRegs) (_hi : i < 256) :
    (WatchdogHandle.steal i).index = i ∧
    ((WatchdogHandle.steal i).pet r).2 = [WriteEvent.rrW i] ∧
    ((WatchdogHandle.steal i).pet r).1.reqstatus = clearBit r.reqstatus i ∧
    (WatchdogHandle.steal i).isPet r = !(r.reqstatus.testBit i) :=
  ⟨rfl, rfl, rfl, rfl⟩

/-- C10 witness: stealing index 9 — beyond any valid `N` and beyond the 8
hardware indices — still yields a handle with raw index 9 whose pet targets
reload register 9. -/
theorem c10_steal_unchecked_witness :
    (WatchdogHandle.steal 9).index = 9 ∧
    ((WatchdogHandle.steal 9).pet regsArmedTwo).2 = [WriteEvent.rrW 9] ∧
    ((WatchdogHandle.steal 9).pet regsArmedTwo).1.reqstatus =
      clearBit regsArmedTwo.reqstatus 9 ∧
    (WatchdogHandle.steal 9).isPet regsArmedTwo =
      !(regsArmedTwo.reqstatus.testBit 9) :=
  c10_steal_unchecked 9 regsArmedTwo (by decide)

/-- C2: counterexample.  Re-attaching with N = 2 and the identical
configuration to the already-armed `regsArmedTwo` succeeds, but it is not
true that "no register writes at all" occur: the two freshly-minted handles
are each pet during construction, so two reload-register writes are
performed and the hardware state changes (both pending bits are cleared). -/
theorem c2_attach_writes_counterexample :
    (tryNew 2 regsArmedTwo Config.default).1 = TryNewResult.ok [0, 1] ∧
    (tryNew 2 regsArmedTwo Config.default).2.2 ≠ [] ∧
    (tryNew 2 regsArmedTwo Config.default).2.1 ≠ regsArmedTwo := by
  decide

/-- C2 (amended): re-attaching to an armed peripheral with an identical
configuration tuple succeeds and returns N fresh handles; the only register
writes are the N reload-register pets the freshly-minted handles perform,
so every register except the pending-status bits below N is unchanged, and
no configuration, interrupt, compare, mask or start register is written. -/
theorem c2_idempotent_attach (N : Nat) (r : WdtRegs) (cfg : Config)
    (hN1 : 1 ≤ N) (hN8 : N ≤ 8) (hrun : r.runstatus = true)
    (hh : r.halt = cfg.action_during_debug_halt)
    (hs : r.sleep = cfg.action_during_sleep)
    (hc : r.crv = clampTicks cfg.timeout_ticks)
    (hr : r.rren = (1 <<< N) - 1) :
    (tryNew N r cfg).1 = TryNewResult.ok (List.range N) ∧
    (tryNew N r cfg).2.2 = (List.range N).map WriteEvent.rrW ∧
    (tryNew N r cfg).2.1.runstatus = r.runstatus ∧
    (tryNew N r cfg).2.1.sleep = r.sleep ∧
    (tryNew N r cfg).2.1.halt = r.halt ∧
    (tryNew N r cfg).2.1.inten = r.inten ∧
    (tryNew N r cfg).2.1.crv = r.crv ∧
    (tryNew N r cfg).2.1.rren = r.rren ∧
    (∀ j, N ≤ j →
      (tryNew N r cfg).2.1.reqstatus.testBit j = r.reqstatus.testBit j) ∧
    (∀ j, j < N → (tryNew N r cfg).2.1.reqstatus.testBit j = false) := by
  rw [tryNew_armed_match N r cfg hN1 hN8 hrun hh hs hc hr]
  refine ⟨rfl, rfl, rfl, rfl, rfl, rfl, rfl, rfl, ?_, ?_⟩
  · intro j hj
    have : ¬ j < N := Nat.not_lt.mpr hj
    simp [foldClear_testBit, List.mem_range, this]
  · intro j hj
    simp [foldClear_testBit, List.mem_range, hj]

/-- C2 witness: the amended statement at `regsArmedTwo` with N = 2 and the
matching default configuration. -/
theorem c2_idempotent_attach_witness :
    (tryNew 2 regsArmedTwo Config.default).1 = TryNewResult.ok (List.range 2) ∧
    (tryNew 2 regsArmedTwo Config.default).2.2 =
      (List.range 2).map WriteEvent.rrW ∧
    (tryNew 2 regsArmedTwo Config.default).2.1.crv = regsArmedTwo.crv ∧
    (tryNew 2 regsArmedTwo Config.default).2.1.reqstatus.testBit 0 = false ∧
    (tryNew 2 regsArmedTwo Config.default).2.1.reqstatus.testBit 2 =
      regsArmedTwo.reqstatus.testBit 2 := by
  obtain ⟨h1, h2, _, _, _, _, h7, _, hhi, hlo⟩ :=
    c2_idempotent_attach 2 regsArmedTwo Config.default (by decide) (by decide)
      (by decide) (by decide) (by decide) (by decide) (by decide)
  exact ⟨h1, h2, h7, hlo 0 (by decide), hhi 2 (by decide)⟩

/-- C3: constructing against an armed peripheral whose live configuration
differs in any of the four compared components (halt, sleep, clamped crv,
enable mask) fails with `Err`, returning the capability, with an empty
write log and the register state unchanged — no partial mutation. -/
theorem c3_mismatch_fails_unchanged (N : Nat) (r : WdtRegs) (cfg : Config)
    (hN1 : 1 ≤ N) (hN8 : N ≤ 8) (hrun : r.runstatus = true)
    (hmis : r.halt ≠ cfg.action_during_debug_halt ∨
            r.sleep ≠ cfg.action_during_sleep ∨
            r.crv ≠ clampTicks cfg.timeout_ticks ∨
            r.rren ≠ (1 <<< N) - 1) :
    tryNew N r cfg = (TryNewResult.err, r, []) :=
  tryNew_armed_mismatch N r cfg hN1 hN8 hrun hmis

/-- C3 witness: requesting a different timeout against the armed
`regsArmedTwo` fails and changes nothing. -/
theorem c3_mismatch_fails_unchanged_witness :
    tryNew 2 regsArmedTwo { Config.default with timeout_ticks := 64 } =
      (TryNewResult.err, regsArmedTwo, []) :=
  c3_mismatch_fails_unchanged 2 regsArmedTwo
    { Config.default with timeout_ticks := 64 }
    (by decide) (by decide) (by decide) (by decide)

/-- C4: constructing against a not-armed peripheral writes the sleep/halt
policy, enables the timeout notification, writes the clamped crv, writes
the mask `(1<<N)-1` and issues the start command, in that order, then
yields handles `0..N-1`; each has been pet once, so every pending bit is
clear (`reqstatus = 0`) and each handle is initially reported. -/
theorem c4_arm_sequence (N : Nat) (r : WdtRegs) (cfg : Config)
    (hN1 : 1 ≤ N) (hN8 : N ≤ 8) (hoff : r.runstatus = false) :
    (tryNew N r cfg).1 = TryNewResult.ok (List.range N) ∧
    (tryNew N r cfg).2.2 =
      WriteEvent.configW cfg.action_during_sleep cfg.action_during_debug_halt ::
        WriteEvent.intensetW :: WriteEvent.crvW (clampTicks cfg.timeout_ticks) ::
        WriteEvent.rrenW ((1 <<< N) - 1) :: WriteEvent.startW ::
        (List.range N).map WriteEvent.rrW ∧
    (tryNew N r cfg).2.1.runstatus = true ∧
    (tryNew N r cfg).2.1.sleep = cfg.action_during_sleep ∧
    (tryNew N r cfg).2.1.halt = cfg.action_during_debug_halt ∧
    (tryNew N r cfg).2.1.inten = true ∧
    (tryNew N r cfg).2.1.crv = clampTicks cfg.timeout_ticks ∧
    (tryNew N r cfg).2.1.rren = (1 <<< N) - 1 ∧
    (tryNew N r cfg).2.1.reqstatus = 0 ∧
    (∀ i, i ∈ List.range N →
      WatchdogHandle.isPet { index := i } (tryNew N r cfg).2.1 = true) := by
  rw [tryNew_not_armed N r cfg hN1 hN8 hoff]
  refine ⟨rfl, rfl, rfl, rfl, rfl, rfl, rfl, rfl, foldClear_mask_eq_zero N, ?_⟩
  intro i _
  simp [WatchdogHandle.isPet, foldClear_mask_eq_zero N]

/-- C4 witness: arming from `regsIdle` with N = 3 and the default config. -/
theorem c4_arm_sequence_witness :
    (tryNew 3 regsIdle Config.default).1 = TryNewResult.ok (List.range 3) ∧
    (tryNew 3 regsIdle Config.default).2.1.runstatus = true ∧
    (tryNew 3 regsIdle Config.default).2.1.inten = true ∧
    (tryNew 3 regsIdle Config.default).2.1.rren = 7 ∧
    (tryNew 3 regsIdle Config.default).2.1.reqstatus = 0 ∧
    WatchdogHandle.isPet { index := 2 } (tryNew 3 regsIdle Config.default).2.1 =
      true := by
  obtain ⟨h1, _, h3, _, _, h6, _, h8, h9, h10⟩ :=
    c4_arm_sequence 3 regsIdle Config.default (by decide) (by decide) rfl
  exact ⟨h1, h3, h6, h8, h9, h10 2 (by decide)⟩

/-- C5: the effective compare/reload value is `max timeout_ticks 15`: it is
always at least 15, equals exactly 15 whenever `timeout_ticks < 15`, is
used unchanged whenever `timeout_ticks ≥ 15`, and is the value written to
the crv register when the peripheral is armed. -/
theorem c5_min_ticks_clamp (N : Nat) (r : WdtRegs) (cfg : Config)
    (hN1 : 1 ≤ N) (hN8 : N ≤ 8) (hoff : r.runstatus = false) :
    MIN_TICKS ≤ clampTicks cfg.timeout_ticks ∧
    (cfg.timeout_ticks < MIN_TICKS → clampTicks cfg.timeout_ticks = 15) ∧
    (MIN_TICKS ≤ cfg.timeout_ticks →
      clampTicks cfg.timeout_ticks = cfg.timeout_ticks) ∧
    (tryNew N r cfg).2.1.crv = clampTicks cfg.timeout_ticks := by
  refine ⟨Nat.le_max_right _ _, ?_, ?_, ?_⟩
  · intro h
    exact Nat.max_eq_right (Nat.le_of_lt h)
  · intro h
    exact Nat.max_eq_left h
  · rw [tryNew_not_armed N r cfg hN1 hN8 hoff]

/-- C5 witness: a requested timeout of 10 ticks is stored and written as
exactly 15. -/
theorem c5_min_ticks_clamp_witness :
    clampTicks 10 = 15 ∧
    (tryNew 1 regsIdle { Config.default with timeout_ticks := 10 }).2.1.crv =
      15 := by
  obtain ⟨_, h2, _, h4⟩ :=
    c5_min_ticks_clamp 1 regsIdle { Config.default with timeout_ticks := 10 }
      (by decide) (by decide) rfl
  refine ⟨h2 (by decide), ?_⟩
  rw [h4]
  exact h2 (by decide)

/-- C8: `Config::try_new` is a pure query: it leaves the register state
unchanged and performs no writes, returns the live `(crv, sleep, halt)` as
a `Config` exactly when the peripheral is armed, and returns `none` when it
is not. -/
theorem c8_config_query (r : WdtRegs) :
    (configTryNew r).2.1 = r ∧
    (configTryNew r).2.2 = [] ∧
    (r.runstatus = true →
      (configTryNew r).1 =
        some { timeout_ticks := r.crv
               action_during_sleep := r.sleep
               action_during_debug_halt := r.halt }) ∧
    (r.runstatus = false → (configTryNew r).1 = none) := by
  refine ⟨rfl, rfl, ?_, ?_⟩ <;> intro h <;> simp [configTryNew, h]

/-- C8 witness: the armed `regsArmedTwo` reads back its live configuration
with no writes; the idle `regsIdle` reads back `none`. -/
theorem c8_config_query_witness :
    (configTryNew regsArmedTwo).1 =
      some { timeout_ticks := 32768
             action_during_sleep := SleepConfig.RUN
             action_during_debug_halt := HaltConfig.RUN } ∧
    (configTryNew regsArmedTwo).2.2 = [] ∧
    (configTryNew regsIdle).1 = none := by
  obtain ⟨_, h2, h3, _⟩ := c8_config_query regsArmedTwo
  obtain ⟨_, _, _, h4⟩ := c8_config_query regsIdle
  exact ⟨h3 rfl, h2, h4 rfl⟩

end Wdt
